import Mathlib

/-!
Verification of the deals-bot orchestrator (`src/bot.py`): data model,
message renderer, affiliate-link generation, the per-deal posting pipeline
of `post_deal`, and the `run_forever` loop, embedded shallowly in Lean.

Modelling conventions:
* Prices are exact decimal amounts represented in cents (`Nat`); the Python
  source formats prices with `:.2f`, which on such amounts prints the cent
  value with exactly two decimal digits, mirrored here by `fmtPrice`.
* `datetime.now()` is modelled by an explicit `Timestamp` argument.
* The stateful loop of `run_forever` is modelled as a trace-producing
  function over an explicit environment: a list of per-cycle external
  outcomes (proxy health, discovery result, per-deal send/upsert faults)
  plus the externally mutated run flag, given as a function from
  poll index to its observed value.
* Exceptions raised by collaborators are modelled by outcome flags;
  `Except` is used where the Python code lets an exception propagate.
-/

/-- A discovered deal, as the dict consumed by `bot.py`
(`asin`, `title`, `sale_price`, `original_price`, `discount`,
`category`, `url`). Prices in cents. -/
structure Deal where
  asin : String
  title : String
  sale_price : Nat
  original_price : Nat
  discount : Nat
  category : String
  url : String
deriving DecidableEq, Repr

/-- Historical statistics for one identifier, as the dict returned by
`get_deal_stats` (`lowest_price`, `times_posted`). -/
structure DealStats where
  lowest_price : Nat
  times_posted : Nat
deriving DecidableEq, Repr

/-- Modelled from the spec: the Deal Store Client (`src/database.py` is not
present under `src/`; only `bot.py` is). Per spec section 4.5 and the
glossary, the store records deals keyed by the exact
`(identifier, sale_price)` pair and serves per-identifier statistics. -/
structure Db where
  records : List (String × Nat)
  statsMap : List (String × DealStats)
deriving DecidableEq, Repr

/-- Modelled from the spec: `is_duplicate(identifier, sale_price) -> bool`
is true iff a prior record exists for that identifier at that exact
sale price (spec sections 4.3 and 4.5, glossary entry "Duplicate"). -/
def is_duplicate_deal (db : Db) (asin : String) (price : Nat) : Bool :=
  decide ((asin, price) ∈ db.records)

/-- Modelled from the spec: `stats(identifier) -> DealStats | absent`
(spec section 4.5); absent when the identifier has never been posted. -/
def get_deal_stats (db : Db) (asin : String) : Option DealStats :=
  List.lookup asin db.statsMap

/-- Modelled from the spec: `upsert(deal)` records the deal's
`(identifier, sale_price)` pair (idempotent under repeated identical
input, spec section 4.5) and updates the identifier's statistics
(lowest price seen, times posted). -/
def update_deal (db : Db) (d : Deal) : Db :=
  { records :=
      if (d.asin, d.sale_price) ∈ db.records then db.records
      else (d.asin, d.sale_price) :: db.records,
    statsMap :=
      match List.lookup d.asin db.statsMap with
      | none => (d.asin, ⟨d.sale_price, 1⟩) :: db.statsMap
      | some s =>
          (d.asin, ⟨min s.lowest_price d.sale_price, s.times_posted + 1⟩) ::
            db.statsMap.filter (fun p => !(p.1 == d.asin)) }

/-- Runtime configuration; each recognized key of the YAML config file is
an `Option` so that a missing key can be represented
(`telegram.bot_token`, `telegram.channel_id`, `database.path`,
`database.retention_days`, `scraping.max_proxies`,
`scraping.request_delay.min`, `scraping.update_interval_minutes`,
`amazon.affiliate_id`). -/
structure Config where
  bot_token : Option String
  channel_id : Option String
  db_path : Option String
  retention_days : Option Nat
  max_proxies : Option Nat
  request_delay_min : Option Nat
  update_interval_minutes : Option Nat
  affiliate_id : Option String
deriving DecidableEq, Repr

/-- A clock reading, standing in for `datetime.now()`. -/
structure Timestamp where
  year : Nat
  month : Nat
  day : Nat
  hour : Nat
  minute : Nat
  second : Nat
deriving DecidableEq, Repr

/-- Zero-padded two-digit rendering, as `strftime` uses for
month/day/hour/minute/second and `:.2f` uses for the cent part. -/
def pad2 (n : Nat) : String :=
  if n < 10 then "0" ++ Nat.repr n else Nat.repr n

/-- `strftime "%Y-%m-%d %H:%M:%S"` on a `Timestamp`. -/
def fmtTimestamp (t : Timestamp) : String :=
  Nat.repr t.year ++ "-" ++ pad2 t.month ++ "-" ++ pad2 t.day ++ " " ++
    pad2 t.hour ++ ":" ++ pad2 t.minute ++ ":" ++ pad2 t.second

/-- Python `f"{x:.2f}"` on an exact cent amount: the whole units, a dot,
and exactly two cent digits. -/
def fmtPrice (cents : Nat) : String :=
  Nat.repr (cents / 100) ++ "." ++ pad2 (cents % 100)

/-- Python `str.capitalize()` (ASCII): first character uppercased, every
remaining character lowercased — as applied to `deal['category']`. -/
def pyCapitalize (s : String) : String :=
  match s.data with
  | [] => ""
  | c :: cs => String.mk (Char.toUpper c :: cs.map Char.toLower)

/-- `_generate_affiliate_link` with the `amazon.affiliate_id` value in
hand: appends `tag=<id>`, joined with `&` when the URL already contains
`?` and with `?` otherwise (bot.py lines 73-77). -/
def generate_affiliate_link (affiliate_id : String) (url : String) : String :=
  if url.data.contains '?' then url ++ "&tag=" ++ affiliate_id
  else url ++ "?tag=" ++ affiliate_id

/-- The `price_history` block computed by `_format_deal_message`
(bot.py lines 50-55): nonempty exactly when stats exist and
`times_posted > 1`. -/
def price_history (stats : Option DealStats) : String :=
  match stats with
  | some s =>
      if 1 < s.times_posted then
        "\n💹 Lowest Price: $" ++ fmtPrice s.lowest_price ++
          "\n📊 Times Listed: " ++ Nat.repr s.times_posted
      else ""
  | none => ""

/-- The hashtag line of the rendered message (bot.py line 69). -/
def hashtagLine (d : Deal) : String :=
  "#" ++ pyCapitalize d.category ++ " #AmazonDeals #Discount"

/-- `_format_deal_message` with its three environment reads made explicit
as arguments: the affiliate id (config read), the stats for the deal's
identifier (store read), and the clock reading (bot.py lines 47-71). -/
def formatMsgPure (affiliate_id : String) (d : Deal)
    (stats : Option DealStats) (t : Timestamp) : String :=
  "🔥 HOT DEAL ALERT! 🔥\n\n📦 " ++ d.title ++
    "\n\n💰 Sale Price: $" ++ fmtPrice d.sale_price ++
    "\n❌ Original: $" ++ fmtPrice d.original_price ++
    "\n💯 Save: " ++ Nat.repr d.discount ++ "% ($" ++
    fmtPrice (d.original_price - d.sale_price) ++ ")" ++
    price_history stats ++
    "\n\n🛍️ Buy Now: " ++ generate_affiliate_link affiliate_id d.url ++
    "\n\n" ++ hashtagLine d ++ "\nPosted: " ++ fmtTimestamp t

/-- `_format_deal_message` as called by `post_deal`: reads the stats from
the store, and raises `KeyError` (here `Except.error`) when
`amazon.affiliate_id` is absent from the config. -/
def format_deal_message (cfg : Config) (db : Db) (d : Deal)
    (t : Timestamp) : Except String String :=
  match cfg.affiliate_id with
  | none => .error "KeyError: amazon.affiliate_id"
  | some a => .ok (formatMsgPure a d (get_deal_stats db d.asin) t)

/-- One observable step of `run_forever`, recorded in execution traces:
flag polls, dedup queries, message sends, store upserts, and the three
kinds of `asyncio.sleep` (per-deal throttle, inter-cycle pause, and the
fixed error cooldown). Sleep durations are in seconds. -/
inductive Event where
  | pollFlag (observed : Bool)
  | acquireProxy
  | discover
  | dedupCheck (asin : String) (price : Nat) (dup : Bool)
  | sendMsg (ok : Bool)
  | upsert (ok : Bool)
  | throttle (seconds : Nat)
  | sleepCycle (seconds : Nat)
  | cooldown (seconds : Nat)
deriving DecidableEq, Repr

/-- External behaviour of the collaborators during one deal's
`post_deal` call: whether `bot.send_message` succeeds (raises a
`TelegramError` otherwise) and whether `db.update_deal` succeeds
(raises otherwise). -/
structure Outcome where
  sendOk : Bool
  upsertOk : Bool
deriving DecidableEq, Repr

/-- Result of one `post_deal` call: the returned boolean, the store state
after the call, and the trace of observable events. -/
structure PostRes where
  ok : Bool
  db : Db
  events : List Event
deriving DecidableEq, Repr

/-- `post_deal` (bot.py lines 30-45): render the message (raises when
`amazon.affiliate_id` is missing — caught, returning `false`), send it,
then upsert the deal; any exception from send or upsert is caught and
`false` is returned, and a failed upsert leaves the store unchanged. -/
def post_deal (cfg : Config) (d : Deal) (o : Outcome) (db : Db) : PostRes :=
  match cfg.affiliate_id with
  | none => ⟨false, db, []⟩
  | some _ =>
      if o.sendOk then
        if o.upsertOk then ⟨true, update_deal db d, [.sendMsg true, .upsert true]⟩
        else ⟨false, db, [.sendMsg true, .upsert false]⟩
      else ⟨false, db, [.sendMsg false]⟩

/-- Result of the per-deal `for` loop: trace, final store, next poll
index, final `posted_count`, and whether an exception escaped the loop
(only possible when `scraping.request_delay.min` is missing). -/
structure LoopOut where
  events : List Event
  db : Db
  polls : Nat
  count : Nat
  crashed : Bool
deriving DecidableEq, Repr

/-- The per-deal `for` loop of `run_forever` (bot.py lines 95-108).
`flag` gives the value observed by the i-th poll of `self.running`;
the poll index `t` and `posted_count` `c` are threaded through.
Before each candidate the flag is polled (`if not self.running: break`),
then the duplicate gate runs, then `post_deal`; on success the count is
incremented and the throttle sleep runs — reading
`scraping.request_delay.min`, whose absence raises out of the loop. -/
def dealLoop (cfg : Config) (flag : Nat → Bool) :
    List (Deal × Outcome) → Db → Nat → Nat → LoopOut
  | [], db, t, c => ⟨[], db, t, c, false⟩
  | (d, o) :: rest, db, t, c =>
      if flag t then
        if is_duplicate_deal db d.asin d.sale_price then
          let r := dealLoop cfg flag rest db (t + 1) c
          ⟨.pollFlag true :: .dedupCheck d.asin d.sale_price true :: r.events,
            r.db, r.polls, r.count, r.crashed⟩
        else
          let pd := post_deal cfg d o db
          if pd.ok then
            match cfg.request_delay_min with
            | some dm =>
                let r := dealLoop cfg flag rest pd.db (t + 1) (c + 1)
                ⟨.pollFlag true :: .dedupCheck d.asin d.sale_price false ::
                    pd.events ++ .throttle dm :: r.events,
                  r.db, r.polls, r.count, r.crashed⟩
            | none =>
                ⟨.pollFlag true :: .dedupCheck d.asin d.sale_price false ::
                    pd.events, pd.db, t + 1, c + 1, true⟩
          else
            let r := dealLoop cfg flag rest pd.db (t + 1) c
            ⟨.pollFlag true :: .dedupCheck d.asin d.sale_price false ::
                pd.events ++ r.events, r.db, r.polls, r.count, r.crashed⟩
      else ⟨[.pollFlag false], db, t + 1, c, false⟩

/-- External behaviour of one cycle's collaborators: whether
`get_working_proxy` succeeds, and the discovery result
(`none` meaning `get_deals` raised; otherwise the batch, each candidate
paired with its `post_deal` collaborator outcomes). -/
structure CycleEnv where
  proxyOk : Bool
  deals : Option (List (Deal × Outcome))
deriving Repr

/-- Result of one cycle body (the `try` block of bot.py lines 84-115 up
to, but not including, the inter-cycle sleep). -/
structure CycleOut where
  events : List Event
  db : Db
  polls : Nat
  count : Nat
  crashed : Bool
deriving DecidableEq, Repr

/-- One cycle body: proxy acquisition, discovery, then the per-deal loop
(bot.py lines 85-112). A proxy or discovery failure raises, which is
recorded as `crashed`. -/
def runCycle (cfg : Config) (flag : Nat → Bool) (env : CycleEnv)
    (db : Db) (t : Nat) : CycleOut :=
  if env.proxyOk then
    match env.deals with
    | none => ⟨[.acquireProxy, .discover], db, t, 0, true⟩
    | some ds =>
        let r := dealLoop cfg flag ds db t 0
        ⟨.acquireProxy :: .discover :: r.events, r.db, r.polls, r.count, r.crashed⟩
  else ⟨[], db, t, 0, true⟩

/-- Result of the whole `while` loop of `run_forever`. -/
structure RunOut where
  events : List Event
  db : Db
  polls : Nat
deriving DecidableEq, Repr

/-- The `while self.running` loop of `run_forever` (bot.py lines 83-119),
driven by a finite list of per-cycle environments (the run is cut off
when they are exhausted). Each iteration polls the flag (the `while`
condition), runs the cycle body inside `try`, and then either sleeps the
inter-cycle interval (poll-guarded; a missing
`scraping.update_interval_minutes` raises inside the `try`) or — when
the cycle body raised — sleeps the fixed 60-second cooldown of the
`except` handler before re-entering the loop. -/
def runBot (cfg : Config) (flag : Nat → Bool) :
    List CycleEnv → Db → Nat → RunOut
  | [], db, t => ⟨[], db, t⟩
  | env :: rest, db, t =>
      if flag t then
        let c := runCycle cfg flag env db (t + 1)
        if c.crashed then
          let r := runBot cfg flag rest c.db c.polls
          ⟨.pollFlag true :: c.events ++ .cooldown 60 :: r.events, r.db, r.polls⟩
        else
          if flag c.polls then
            match cfg.update_interval_minutes with
            | some m =>
                let r := runBot cfg flag rest c.db (c.polls + 1)
                ⟨.pollFlag true :: c.events ++ .pollFlag true ::
                    .sleepCycle (m * 60) :: r.events, r.db, r.polls⟩
            | none =>
                let r := runBot cfg flag rest c.db (c.polls + 1)
                ⟨.pollFlag true :: c.events ++ .pollFlag true ::
                    .cooldown 60 :: r.events, r.db, r.polls⟩
          else
            let r := runBot cfg flag rest c.db (c.polls + 1)
            ⟨.pollFlag true :: c.events ++ .pollFlag false :: r.events,
              r.db, r.polls⟩
      else ⟨[.pollFlag false], db, t + 1⟩

/-- Construction plus `run_forever` up to the main loop: `__init__`
accesses `telegram.bot_token`, `telegram.channel_id`, `database.path`
and `scraping.max_proxies` (bot.py lines 14-24; a missing key raises
`KeyError` out of the constructor), then `initialize()` (bot.py lines
26-28, awaited at the top of `run_forever` before the loop) runs the
proxy-source initialization and `clean_old_deals`, which reads
`database.retention_days`. Any of these failures is fatal: the loop is
never entered. Retention pruning's record selection involves record
ages, which are not represented here; only its config access is
modelled. -/
def startBot (cfg : Config) (proxyInitOk : Bool) (flag : Nat → Bool)
    (envs : List CycleEnv) (db : Db) : Except String RunOut :=
  match cfg.bot_token with
  | none => .error "KeyError: telegram.bot_token"
  | some _ =>
  match cfg.channel_id with
  | none => .error "KeyError: telegram.channel_id"
  | some _ =>
  match cfg.db_path with
  | none => .error "KeyError: database.path"
  | some _ =>
  match cfg.max_proxies with
  | none => .error "KeyError: scraping.max_proxies"
  | some _ =>
  if proxyInitOk then
    match cfg.retention_days with
    | none => .error "KeyError: database.retention_days"
    | some _ => .ok (runBot cfg flag envs db 0)
  else .error "proxy source initialization failed"

/-- Whether a startup outcome is a fatal error. -/
def isFatal (r : Except String RunOut) : Bool :=
  match r with
  | .error _ => true
  | .ok _ => false

/-- The successful result of a startup outcome, if any. -/
def okResult (r : Except String RunOut) : Option RunOut :=
  match r with
  | .error _ => none
  | .ok out => some out

/-- Seconds spent in an event: sleeps last their stated duration, all
other events are instantaneous in this model. -/
def duration : Event → Nat
  | .throttle s => s
  | .sleepCycle s => s
  | .cooldown s => s
  | _ => 0

/-- Total seconds of sleeping that occur in a trace strictly after the
last poll that observed the flag still true — a lower bound on the
shutdown latency when the stop signal arrives right after that poll. -/
def durAfterLastTruePoll (l : List Event) : Nat :=
  l.foldl (fun acc e =>
    match e with
    | .pollFlag true => 0
    | _ => acc + duration e) 0

/-- Scans a trace checking that between two consecutive flag polls at
most one message send and at most one throttle pause occur; the two
accumulators count sends and throttles seen since the last poll. -/
def segOk : Nat → Nat → List Event → Bool
  | _, _, [] => true
  | _, _, .pollFlag _ :: rest => segOk 0 0 rest
  | s, th, .sendMsg _ :: rest => decide (s < 1) && segOk (s + 1) th rest
  | s, th, .throttle _ :: rest => decide (th < 1) && segOk s (th + 1) rest
  | s, th, _ :: rest => segOk s th rest

/-- Splits a character list into lines at newline characters. -/
def splitLines : List Char → List (List Char)
  | [] => [[]]
  | c :: cs =>
      if c = '\n' then [] :: splitLines cs
      else
        match splitLines cs with
        | [] => [[c]]
        | l :: ls => (c :: l) :: ls

/-- Formalizes the claim's phrase "the deal's category with its first
letter capitalized" literally: only the first character is uppercased,
the rest is left unchanged — for comparison with the source's
`str.capitalize`, which also lowercases the remaining characters. -/
def specCapitalize (s : String) : String :=
  match s.data with
  | [] => ""
  | c :: cs => String.mk (Char.toUpper c :: cs)

/-- The hashtag line the claim describes, built with `specCapitalize`. -/
def specHashtagLine (d : Deal) : String :=
  "#" ++ specCapitalize d.category ++ " #AmazonDeals #Discount"

/-- A concrete deal whose category has an uppercase letter past the
first position. -/
def dealTV : Deal :=
  ⟨"B00TV", "Big TV", 19999, 29999, 33, "TV", "https://amazon.com/dp/B00TV"⟩

/-- A concrete clock reading. -/
def t0 : Timestamp := ⟨2026, 10, 12, 9, 30, 5⟩

/-- A clock reading one second later than `t0`. -/
def t1 : Timestamp := ⟨2026, 10, 12, 9, 30, 6⟩

/-- A fully populated configuration. -/
def cfg0 : Config :=
  ⟨some "tok", some "chan", some "deals.db", some 30, some 10, some 1,
    some 5, some "mytag-20"⟩

/-- An empty store. -/
def db0 : Db := ⟨[], []⟩

/-- A run flag that stays true at every poll. -/
def flagT : Nat → Bool := fun _ => true

/-- A run flag observed true by the first two polls and false afterwards. -/
def flag2 : Nat → Bool := fun i => decide (i < 2)

/-- Appending cannot empty a string whose character data is nonempty. -/
theorem str_data_ne_append (s t : String) (h : s.data ≠ []) :
    (s ++ t).data ≠ [] := by
  rw [String.data_append]
  intro he
  exact h (List.append_eq_nil.mp he).1

/-- A string with nonempty character data is not the empty string. -/
theorem str_ne_empty_of_data (s : String) (h : s.data ≠ []) : s ≠ "" := by
  intro he
  rw [he] at h
  exact h rfl

/-- C5: the rendered message contains the historical block (lowest price
seen and times posted) iff stats for the deal's identifier are present
with `times_posted` strictly greater than 1; otherwise the block is
absent (the `price_history` segment of the message is empty). -/
theorem C5_history_block_gating (a : String) (d : Deal)
    (stats : Option DealStats) (t : Timestamp) :
    (price_history stats = "" ↔ ¬ ∃ s, stats = some s ∧ 1 < s.times_posted)
    ∧ (∀ s, stats = some s → 1 < s.times_posted →
        price_history stats =
          "\n💹 Lowest Price: $" ++ fmtPrice s.lowest_price ++
            "\n📊 Times Listed: " ++ Nat.repr s.times_posted)
    ∧ formatMsgPure a d stats t =
        ("🔥 HOT DEAL ALERT! 🔥\n\n📦 " ++ d.title ++
          "\n\n💰 Sale Price: $" ++ fmtPrice d.sale_price ++
          "\n❌ Original: $" ++ fmtPrice d.original_price ++
          "\n💯 Save: " ++ Nat.repr d.discount ++ "% ($" ++
          fmtPrice (d.original_price - d.sale_price) ++ ")")
        ++ price_history stats ++
        ("\n\n🛍️ Buy Now: " ++ generate_affiliate_link a d.url ++
          "\n\n" ++ hashtagLine d ++ "\nPosted: " ++ fmtTimestamp t) := by
  refine ⟨?_, ?_, ?_⟩
  · cases stats with
    | none => simp [price_history]
    | some s =>
        by_cases htp : 1 < s.times_posted
        · simp only [price_history, htp, if_true]
          constructor
          · intro he
            refine absurd he (str_ne_empty_of_data _ ?_)
            refine str_data_ne_append _ _ (str_data_ne_append _ _ (str_data_ne_append _ _ ?_))
            decide
          · intro hno
            exact absurd ⟨s, rfl, htp⟩ hno
        · simp [price_history, htp]
  · intro s hs htp
    subst hs
    simp [price_history, htp]
  · simp [formatMsgPure, String.append_assoc]

/-- C5 witness: literal stats `{lowest_price: 1500, times_posted: 3}`
make the block present, and the gate iff holds there. -/
theorem C5_history_block_gating_witness :
    (price_history (some ⟨1500, 3⟩) = "" ↔
      ¬ ∃ s, (some ⟨1500, 3⟩ : Option DealStats) = some s ∧ 1 < s.times_posted)
    ∧ price_history (some ⟨1500, 3⟩) =
        "\n💹 Lowest Price: $" ++ fmtPrice 1500 ++
          "\n📊 Times Listed: " ++ Nat.repr 3 :=
  ⟨(C5_history_block_gating "a" dealTV (some ⟨1500, 3⟩) t0).1,
    (C5_history_block_gating "a" dealTV (some ⟨1500, 3⟩) t0).2.1
      ⟨1500, 3⟩ rfl (by decide)⟩

/-- C6: the generated outbound link is the source URL passed through
unchanged with `tag=<affiliate id>` appended, joined with `&` when the
URL contains a `?` and with `?` otherwise. -/
theorem C6_affiliate_link (a url : String) :
    generate_affiliate_link a url =
      url ++ (if url.data.contains '?' then "&tag=" else "?tag=") ++ a := by
  unfold generate_affiliate_link
  split <;> rfl

/-- C8 counterexample: two renderings with the same deal, the same
(absent) stats and the same affiliate id, but performed at different
clock readings, produce different output texts — rendering reads the
clock, so it is not a function of Deal and DealStats alone. -/
theorem C8_purity_counterexample :
    t0 ≠ t1 ∧
      formatMsgPure "mytag-20" dealTV none t0 ≠
        formatMsgPure "mytag-20" dealTV none t1 := by
  set_option maxRecDepth 8000 in decide

/-- C8 (amended): rendering is deterministic given the deal, the stats,
the affiliate id and the clock reading — two renderings whose clock
readings print identically produce identical text — and
`_format_deal_message` itself additionally performs a store read
(stats lookup keyed on the deal's identifier) and a clock read. -/
theorem C8_render_determinism (a : String) (d : Deal)
    (stats : Option DealStats) (t t' : Timestamp)
    (h : fmtTimestamp t = fmtTimestamp t') :
    formatMsgPure a d stats t = formatMsgPure a d stats t'
    ∧ ∀ (cfg : Config) (db : Db) (aid : String), cfg.affiliate_id = some aid →
        format_deal_message cfg db d t =
          .ok (formatMsgPure aid d (get_deal_stats db d.asin) t) := by
  constructor
  · simp [formatMsgPure, h]
  · intro cfg db aid hc
    simp [format_deal_message, hc]

/-- C8 witness: the determinism theorem applied at a concrete deal,
stats, and equal clock readings, and a concrete configuration. -/
theorem C8_render_determinism_witness :
    formatMsgPure "mytag-20" dealTV none t0 = formatMsgPure "mytag-20" dealTV none t0
    ∧ format_deal_message cfg0 db0 dealTV t0 =
        .ok (formatMsgPure "mytag-20" dealTV (get_deal_stats db0 dealTV.asin) t0) :=
  ⟨(C8_render_determinism "mytag-20" dealTV none t0 t0 rfl).1,
    (C8_render_determinism "mytag-20" dealTV none t0 t0 rfl).2 cfg0 db0 "mytag-20" rfl⟩

/-- C9 counterexample: for the deal with category `"TV"` the rendered
message's hashtag line is `#Tv #AmazonDeals #Discount` — the source's
`str.capitalize` lowercases the characters after the first — and no line
of the message equals the claim's `#TV #AmazonDeals #Discount`
(the category with only its first letter capitalized). -/
theorem C9_capitalize_counterexample :
    (specHashtagLine dealTV).data ∉
        splitLines (formatMsgPure "mytag-20" dealTV none t0).data
    ∧ (hashtagLine dealTV).data ∈
        splitLines (formatMsgPure "mytag-20" dealTV none t0).data
    ∧ hashtagLine dealTV ≠ specHashtagLine dealTV := by
  set_option maxRecDepth 8000 in decide

/-- C9 (amended): prices are rendered with exactly two decimal digits
(the cent part is always two digits), the savings figure is
`original_price - sale_price` rendered the same way together with the
supplied discount percent, and the hashtag line is the category
transformed by uppercasing its first letter and lowercasing the rest,
plus the two fixed promotional tags. -/
theorem C9_render_format (a : String) (d : Deal)
    (stats : Option DealStats) (t : Timestamp) :
    (∀ n, n < 100 → (pad2 n).length = 2 ∧ (pad2 n).data.all Char.isDigit = true)
    ∧ (fmtPrice d.sale_price =
        Nat.repr (d.sale_price / 100) ++ "." ++ pad2 (d.sale_price % 100)
        ∧ d.sale_price % 100 < 100)
    ∧ formatMsgPure a d stats t =
        "🔥 HOT DEAL ALERT! 🔥\n\n📦 " ++ d.title ++
          "\n\n💰 Sale Price: $" ++ fmtPrice d.sale_price ++
          "\n❌ Original: $" ++ fmtPrice d.original_price ++
          "\n💯 Save: " ++ Nat.repr d.discount ++ "% ($" ++
          fmtPrice (d.original_price - d.sale_price) ++ ")" ++
          price_history stats ++
          "\n\n🛍️ Buy Now: " ++ generate_affiliate_link a d.url ++
          "\n\n" ++ hashtagLine d ++ "\nPosted: " ++ fmtTimestamp t
    ∧ hashtagLine d = "#" ++ pyCapitalize d.category ++ " #AmazonDeals #Discount"
    ∧ (∀ c cs, d.category.data = c :: cs →
        (pyCapitalize d.category).data = Char.toUpper c :: cs.map Char.toLower) := by
  refine ⟨by decide, ⟨rfl, Nat.mod_lt _ (by decide)⟩, rfl, rfl, ?_⟩
  intro c cs hc
  simp [pyCapitalize, hc]

/-- C9 witness: the format theorem applied at the concrete `"TV"` deal,
with each hypothesis discharged at a concrete value. -/
theorem C9_render_format_witness :
    ((pad2 5).length = 2 ∧ (pad2 5).data.all Char.isDigit = true)
    ∧ (fmtPrice dealTV.sale_price =
        Nat.repr (dealTV.sale_price / 100) ++ "." ++ pad2 (dealTV.sale_price % 100)
        ∧ dealTV.sale_price % 100 < 100)
    ∧ (pyCapitalize dealTV.category).data =
        Char.toUpper 'T' :: ['V'].map Char.toLower :=
  ⟨(C9_render_format "mytag-20" dealTV none t0).1 5 (by decide),
    (C9_render_format "mytag-20" dealTV none t0).2.1,
    (C9_render_format "mytag-20" dealTV none t0).2.2.2.2 'T' ['V'] rfl⟩

/-- A store already holding identifier `"A1"` at price 1000. -/
def dbDup : Db := ⟨[("A1", 1000)], []⟩

/-- A concrete candidate deal with identifier `"A1"` at price 1000. -/
def dealDup : Deal :=
  ⟨"A1", "Widget", 1000, 2000, 50, "electronics", "https://amazon.com/dp/A1"⟩

/-- Collaborator outcomes where send and upsert both succeed. -/
def oGood : Outcome := ⟨true, true⟩

/-- Collaborator outcomes where send succeeds but the upsert raises. -/
def oBad : Outcome := ⟨true, false⟩

/-- A cycle whose discovery returns an empty batch. -/
def env0 : CycleEnv := ⟨true, some []⟩

/-- A cycle whose proxy acquisition raises. -/
def envBad : CycleEnv := ⟨false, none⟩

/-- A cycle whose discovery returns the single candidate `dealDup`. -/
def envDeal : CycleEnv := ⟨true, some [(dealDup, oGood)]⟩

/-- When the flag polls true and the duplicate gate answers false, the
head candidate's trace continues past the gate into the posting
pipeline. -/
theorem dealLoop_nondup_events (cfg : Config) (flag : Nat → Bool) (d : Deal)
    (o : Outcome) (rest : List (Deal × Outcome)) (db : Db) (t c : Nat)
    (h : flag t = true)
    (hdup : is_duplicate_deal db d.asin d.sale_price = false) :
    ∃ tail, (dealLoop cfg flag ((d, o) :: rest) db t c).events =
      .pollFlag true :: .dedupCheck d.asin d.sale_price false :: tail := by
  simp only [dealLoop, h, hdup, if_true, Bool.false_eq_true, if_false]
  split
  · split
    · exact ⟨_, rfl⟩
    · exact ⟨_, rfl⟩
  · exact ⟨_, rfl⟩

/-- With the flag still true and a healthy proxy, the next loop
iteration begins with a flag poll followed by a proxy acquisition. -/
theorem runBot_cycle_start (cfg : Config) (flag : Nat → Bool) (env : CycleEnv)
    (rest : List CycleEnv) (db : Db) (t : Nat)
    (h : flag t = true) (hp : env.proxyOk = true) :
    (runBot cfg flag (env :: rest) db t).events.take 2 =
      [.pollFlag true, .acquireProxy] := by
  have hev : ∃ tail, (runBot cfg flag (env :: rest) db t).events =
      .pollFlag true :: (runCycle cfg flag env db (t + 1)).events ++ tail := by
    simp only [runBot, h, if_true]
    split
    · exact ⟨_, rfl⟩
    · split
      · split
        · exact ⟨_, rfl⟩
        · exact ⟨_, rfl⟩
      · exact ⟨_, rfl⟩
  obtain ⟨tail, htl⟩ := hev
  rw [htl]
  cases hd : env.deals with
  | none => simp [runCycle, hp, hd]
  | some ds => simp [runCycle, hp, hd]

/-- C1: with the run flag true at the poll, the head candidate is
skipped — trace only the poll and the gate query, store, count and
events otherwise those of the remaining candidates — if and only if the
store's duplicate check for `(identifier, sale_price)` answers true; a
non-duplicate proceeds past the gate; and recording the same identifier
at a different sale price never changes the duplicate answer for this
price. -/
theorem C1_dedup_gate (cfg : Config) (flag : Nat → Bool) (d : Deal)
    (o : Outcome) (rest : List (Deal × Outcome)) (db : Db) (t c : Nat)
    (h : flag t = true) :
    (dealLoop cfg flag ((d, o) :: rest) db t c =
        (let r := dealLoop cfg flag rest db (t + 1) c
         ⟨.pollFlag true :: .dedupCheck d.asin d.sale_price true :: r.events,
           r.db, r.polls, r.count, r.crashed⟩)
      ↔ is_duplicate_deal db d.asin d.sale_price = true)
    ∧ (is_duplicate_deal db d.asin d.sale_price = false →
        ∃ tail, (dealLoop cfg flag ((d, o) :: rest) db t c).events =
          .pollFlag true :: .dedupCheck d.asin d.sale_price false :: tail)
    ∧ (∀ p, p ≠ d.sale_price →
        is_duplicate_deal (update_deal db { d with sale_price := p })
            d.asin d.sale_price
          = is_duplicate_deal db d.asin d.sale_price) := by
  refine ⟨?_, ?_, ?_⟩
  · cases hdup : is_duplicate_deal db d.asin d.sale_price with
    | true =>
        apply iff_of_true _ rfl
        simp only [dealLoop, h, hdup, if_true]
    | false =>
        apply iff_of_false
        · intro heq
          obtain ⟨tail, htl⟩ :=
            dealLoop_nondup_events cfg flag d o rest db t c h hdup
          rw [heq] at htl
          simp at htl
        · simp
  · exact dealLoop_nondup_events cfg flag d o rest db t c h
  · intro p hp
    simp only [is_duplicate_deal, update_deal]
    split
    · rfl
    · rw [decide_eq_decide]
      simp only [List.mem_cons, Prod.mk.injEq]
      constructor
      · rintro (⟨h1, h2⟩ | hm)
        · exact absurd h2.symm hp
        · exact hm
      · exact Or.inr

/-- C1 witness: over a store holding `("A1", 1000)`, the candidate at
the same identifier and price is skipped, and re-recording `"A1"` at
price 900 leaves the duplicate answer for price 1000 unchanged. -/
theorem C1_dedup_gate_witness :
    (dealLoop cfg0 flagT [(dealDup, oGood)] dbDup 0 0 =
        (let r := dealLoop cfg0 flagT [] dbDup (0 + 1) 0
         ⟨.pollFlag true :: .dedupCheck dealDup.asin dealDup.sale_price true :: r.events,
           r.db, r.polls, r.count, r.crashed⟩)
      ↔ is_duplicate_deal dbDup dealDup.asin dealDup.sale_price = true)
    ∧ is_duplicate_deal (update_deal dbDup { dealDup with sale_price := 900 })
        dealDup.asin dealDup.sale_price
        = is_duplicate_deal dbDup dealDup.asin dealDup.sale_price :=
  ⟨(C1_dedup_gate cfg0 flagT dealDup oGood [] dbDup 0 0 rfl).1,
    (C1_dedup_gate cfg0 flagT dealDup oGood [] dbDup 0 0 rfl).2.2 900 (by decide)⟩

/-- C4: past a false duplicate gate, the candidate's trace is the poll,
the gate query, `post_deal`'s own events, then a throttle pause exactly
when `post_deal` returned success (the count is incremented exactly
then), followed by the remaining candidates; `post_deal` itself never
pauses. -/
theorem C4_throttle_iff_success (cfg : Config) (flag : Nat → Bool) (d : Deal)
    (o : Outcome) (rest : List (Deal × Outcome)) (db : Db) (t c dm : Nat)
    (h : flag t = true)
    (hdup : is_duplicate_deal db d.asin d.sale_price = false)
    (hdm : cfg.request_delay_min = some dm) :
    dealLoop cfg flag ((d, o) :: rest) db t c =
      (let pd := post_deal cfg d o db
       let r := dealLoop cfg flag rest pd.db (t + 1) (if pd.ok then c + 1 else c)
       ⟨.pollFlag true :: .dedupCheck d.asin d.sale_price false ::
          (pd.events ++ (if pd.ok then [Event.throttle dm] else []) ++ r.events),
         r.db, r.polls, r.count, r.crashed⟩)
    ∧ ∀ x, Event.throttle x ∉ (post_deal cfg d o db).events := by
  constructor
  · simp only [dealLoop, h, hdup, if_true, Bool.false_eq_true, if_false]
    cases hok : (post_deal cfg d o db).ok with
    | true => simp [hok, hdm]
    | false => simp [hok]
  · intro x
    cases haff : cfg.affiliate_id with
    | none => simp [post_deal, haff]
    | some aid =>
        cases hs : o.sendOk with
        | false => simp [post_deal, haff, hs]
        | true =>
            cases hu : o.upsertOk with
            | false => simp [post_deal, haff, hs, hu]
            | true => simp [post_deal, haff, hs, hu]

/-- C4 witness: over an empty store with a successful send and upsert
and configured delay 1, the pipeline equation holds and `post_deal`'s
events contain no pause. -/
theorem C4_throttle_iff_success_witness :
    dealLoop cfg0 flagT [(dealDup, oGood)] db0 0 0 =
      (let pd := post_deal cfg0 dealDup oGood db0
       let r := dealLoop cfg0 flagT [] pd.db (0 + 1) (if pd.ok then 0 + 1 else 0)
       ⟨.pollFlag true :: .dedupCheck dealDup.asin dealDup.sale_price false ::
          (pd.events ++ (if pd.ok then [Event.throttle 1] else []) ++ r.events),
         r.db, r.polls, r.count, r.crashed⟩)
    ∧ Event.throttle 7 ∉ (post_deal cfg0 dealDup oGood db0).events :=
  ⟨(C4_throttle_iff_success cfg0 flagT dealDup oGood [] db0 0 0 1 rfl
      (by decide) rfl).1,
    (C4_throttle_iff_success cfg0 flagT dealDup oGood [] db0 0 0 1 rfl
      (by decide) rfl).2 7⟩

/-- C10: when the send is delivered but the upsert raises, `post_deal`
returns failure with the store unchanged and the per-deal step neither
increments the count nor pauses, continuing with the next candidate;
in general `post_deal` (with the affiliate key present) succeeds exactly
when both the send and the upsert succeed. -/
theorem C10_upsert_failure (cfg : Config) (flag : Nat → Bool) (d : Deal)
    (o : Outcome) (rest : List (Deal × Outcome)) (db : Db) (t c : Nat)
    (a : String)
    (h : flag t = true)
    (hdup : is_duplicate_deal db d.asin d.sale_price = false)
    (haff : cfg.affiliate_id = some a)
    (hsend : o.sendOk = true) (hups : o.upsertOk = false) :
    post_deal cfg d o db = ⟨false, db, [.sendMsg true, .upsert false]⟩
    ∧ dealLoop cfg flag ((d, o) :: rest) db t c =
        (let r := dealLoop cfg flag rest db (t + 1) c
         ⟨.pollFlag true :: .dedupCheck d.asin d.sale_price false ::
            .sendMsg true :: .upsert false :: r.events,
           r.db, r.polls, r.count, r.crashed⟩)
    ∧ (∀ d' o' db', (post_deal cfg d' o' db').ok = true ↔
        o'.sendOk = true ∧ o'.upsertOk = true) := by
  have hpd : post_deal cfg d o db = ⟨false, db, [.sendMsg true, .upsert false]⟩ := by
    simp [post_deal, haff, hsend, hups]
  refine ⟨hpd, ?_, ?_⟩
  · simp only [dealLoop, h, hdup, if_true, Bool.false_eq_true, if_false, hpd,
      List.cons_append, List.nil_append]
  · intro d' o' db'
    cases hs : o'.sendOk with
    | false => simp [post_deal, haff, hs]
    | true =>
        cases hu : o'.upsertOk with
        | false => simp [post_deal, haff, hs, hu]
        | true => simp [post_deal, haff, hs, hu]

/-- C10 witness: the announced-but-unrecorded case at a concrete deal
over the empty store, and the success criterion evaluated there. -/
theorem C10_upsert_failure_witness :
    post_deal cfg0 dealDup oBad db0 = ⟨false, db0, [.sendMsg true, .upsert false]⟩
    ∧ dealLoop cfg0 flagT [(dealDup, oBad)] db0 0 0 =
        (let r := dealLoop cfg0 flagT [] db0 (0 + 1) 0
         ⟨.pollFlag true :: .dedupCheck dealDup.asin dealDup.sale_price false ::
            .sendMsg true :: .upsert false :: r.events,
           r.db, r.polls, r.count, r.crashed⟩)
    ∧ ((post_deal cfg0 dealDup oGood db0).ok = true ↔
        oGood.sendOk = true ∧ oGood.upsertOk = true) :=
  ⟨(C10_upsert_failure cfg0 flagT dealDup oBad [] db0 0 0 "mytag-20" rfl
      (by decide) rfl rfl rfl).1,
    (C10_upsert_failure cfg0 flagT dealDup oBad [] db0 0 0 "mytag-20" rfl
      (by decide) rfl rfl rfl).2.1,
    (C10_upsert_failure cfg0 flagT dealDup oBad [] db0 0 0 "mytag-20" rfl
      (by decide) rfl rfl rfl).2.2 dealDup oGood db0⟩

/-- Between two consecutive flag polls of the per-deal loop, at most one
message send and at most one throttle pause occur — the mid-batch work
separating a stop signal from its observation is bounded by one publish
plus one pause. -/
theorem segOk_dealLoop (cfg : Config) (flag : Nat → Bool)
    (l : List (Deal × Outcome)) : ∀ (db : Db) (t c s th : Nat),
    segOk s th (dealLoop cfg flag l db t c).events = true := by
  induction l with
  | nil => intro db t c s th; rfl
  | cons p rest ih =>
      intro db t c s th
      obtain ⟨d, o⟩ := p
      cases hf : flag t with
      | false => simp [dealLoop, hf, segOk]
      | true =>
          cases hdup : is_duplicate_deal db d.asin d.sale_price with
          | true =>
              simp only [dealLoop, hf, hdup, if_true]
              exact ih db (t + 1) c 0 0
          | false =>
              cases haff : cfg.affiliate_id with
              | none =>
                  simp only [dealLoop, hf, hdup, if_true, Bool.false_eq_true,
                    if_false, post_deal, haff]
                  exact ih db (t + 1) c 0 0
              | some aid =>
                  cases hs : o.sendOk with
                  | false =>
                      simp only [dealLoop, hf, hdup, if_true, Bool.false_eq_true,
                        if_false, post_deal, haff, hs]
                      exact ih db (t + 1) c 1 0
                  | true =>
                      cases hu : o.upsertOk with
                      | false =>
                          simp only [dealLoop, hf, hdup, if_true,
                            Bool.false_eq_true, if_false, post_deal, haff, hs, hu]
                          exact ih db (t + 1) c 1 0
                      | true =>
                          cases hdm : cfg.request_delay_min with
                          | none =>
                              simp only [dealLoop, hf, hdup, if_true,
                                Bool.false_eq_true, if_false, post_deal, haff,
                                hs, hu, hdm]
                              rfl
                          | some dm =>
                              simp only [dealLoop, hf, hdup, if_true,
                                Bool.false_eq_true, if_false, post_deal, haff,
                                hs, hu, hdm]
                              exact ih (update_deal db d) (t + 1) (c + 1) 1 1

/-- C2 counterexample: with delay 1 s and interval 5 min, a stop signal
arriving right after the pre-sleep poll (the last poll observing true)
is followed by the full 300-second inter-cycle sleep before the loop
exits — the trace after the last true poll sleeps 300 s while
containing no publish and no throttle pause at all, so shutdown latency
is not bounded by one in-flight publish plus one throttle pause. -/
theorem C2_latency_counterexample :
    (runBot cfg0 flag2 [env0, env0] db0 0).events =
      [.pollFlag true, .acquireProxy, .discover, .pollFlag true,
        .sleepCycle 300, .pollFlag false]
    ∧ durAfterLastTruePoll (runBot cfg0 flag2 [env0, env0] db0 0).events = 300
    ∧ ((runBot cfg0 flag2 [env0, env0] db0 0).events.all fun e =>
        match e with
        | .sendMsg _ => false
        | .throttle _ => false
        | _ => true) = true
    ∧ cfg0.request_delay_min = some 1 := by decide

/-- C2 (amended): the flag is polled before each candidate (halting the
batch with no further dedup check, no error, count preserved), before
each cycle's proxy acquisition (halting the loop immediately), and
before the inter-cycle sleep; once a poll observes false the loop emits
nothing further and exits without raising, and between consecutive polls
inside the batch at most one publish and one throttle pause occur — but
a stop arriving during the inter-cycle sleep or error cooldown is only
observed after that pause. -/
theorem C2_cooperative_shutdown :
    (∀ (cfg : Config) (flag : Nat → Bool) (d : Deal) (o : Outcome)
        (rest : List (Deal × Outcome)) (db : Db) (t c : Nat),
        flag t = false →
        dealLoop cfg flag ((d, o) :: rest) db t c =
          ⟨[.pollFlag false], db, t + 1, c, false⟩)
    ∧ (∀ (cfg : Config) (flag : Nat → Bool) (env : CycleEnv)
        (rest : List CycleEnv) (db : Db) (t : Nat),
        flag t = false →
        runBot cfg flag (env :: rest) db t = ⟨[.pollFlag false], db, t + 1⟩)
    ∧ (∀ (cfg : Config) (flag : Nat → Bool) (l : List (Deal × Outcome))
        (db : Db) (t c s th : Nat),
        segOk s th (dealLoop cfg flag l db t c).events = true) := by
  refine ⟨?_, ?_, ?_⟩
  · intro cfg flag d o rest db t c hf
    simp [dealLoop, hf]
  · intro cfg flag env rest db t hf
    simp [runBot, hf]
  · intro cfg flag l db t c s th
    exact segOk_dealLoop cfg flag l db t c s th

/-- C2 witness: the shutdown equations applied at the concrete flag that
drops after two polls, and the segment bound at a concrete batch. -/
theorem C2_cooperative_shutdown_witness :
    dealLoop cfg0 flag2 [(dealDup, oGood)] db0 2 0 =
      ⟨[.pollFlag false], db0, 2 + 1, 0, false⟩
    ∧ runBot cfg0 flag2 [env0] db0 2 = ⟨[.pollFlag false], db0, 2 + 1⟩
    ∧ segOk 0 0 (dealLoop cfg0 flagT [(dealDup, oGood)] db0 0 0).events = true :=
  ⟨C2_cooperative_shutdown.1 cfg0 flag2 dealDup oGood [] db0 2 0 (by decide),
    C2_cooperative_shutdown.2.1 cfg0 flag2 env0 [] db0 2 (by decide),
    C2_cooperative_shutdown.2.2 cfg0 flagT [(dealDup, oGood)] db0 0 0 0 0⟩

/-- C3: with the flag true at the poll, a cycle body that raised (proxy
failure, discovery failure, or an exception escaping the per-deal loop)
is followed by the fixed 60-second cooldown — a literal independent of
the configured inter-cycle interval — and the loop continues with the
next cycle, which (flag still true, proxy healthy) again polls and
acquires a proxy; `runBot` has no failing result, so no such exception
terminates it. -/
theorem C3_cycle_resilience (cfg : Config) (flag : Nat → Bool) (env : CycleEnv)
    (rest : List CycleEnv) (db : Db) (t : Nat)
    (h : flag t = true)
    (hc : (runCycle cfg flag env db (t + 1)).crashed = true) :
    runBot cfg flag (env :: rest) db t =
      (let c := runCycle cfg flag env db (t + 1)
       let r := runBot cfg flag rest c.db c.polls
       ⟨.pollFlag true :: c.events ++ .cooldown 60 :: r.events, r.db, r.polls⟩)
    ∧ ∀ (env' : CycleEnv) (rest' : List CycleEnv) (db' : Db) (t' : Nat),
        flag t' = true → env'.proxyOk = true →
        (runBot cfg flag (env' :: rest') db' t').events.take 2 =
          [.pollFlag true, .acquireProxy] := by
  constructor
  · simp only [runBot, h, if_true, hc]
  · intro env' rest' db' t' h' hp'
    exact runBot_cycle_start cfg flag env' rest' db' t' h' hp'

/-- C3 witness: a cycle whose proxy acquisition raises is followed by
the 60-second cooldown and the next cycle is attempted. -/
theorem C3_cycle_resilience_witness :
    runBot cfg0 flagT [envBad] db0 0 =
      (let c := runCycle cfg0 flagT envBad db0 (0 + 1)
       let r := runBot cfg0 flagT [] c.db c.polls
       ⟨.pollFlag true :: c.events ++ .cooldown 60 :: r.events, r.db, r.polls⟩)
    ∧ (runBot cfg0 flagT [envDeal] db0 5).events.take 2 =
        [.pollFlag true, .acquireProxy] :=
  ⟨(C3_cycle_resilience cfg0 flagT envBad [] db0 0 rfl rfl).1,
    (C3_cycle_resilience cfg0 flagT envBad [] db0 0 rfl rfl).2
      envDeal [] db0 5 rfl rfl⟩

/-- A configuration missing only `amazon.affiliate_id`. -/
def cfgNoAff : Config :=
  ⟨some "tok", some "chan", some "deals.db", some 30, some 10, some 1,
    some 5, none⟩

/-- C7 counterexample: with every recognized key present except
`amazon.affiliate_id`, startup succeeds (no fatal error) and a discovery
cycle runs — the candidate is iterated, its render failure is swallowed
inside `post_deal`, and the loop continues — contradicting the claim
that any missing recognized key aborts startup before the first cycle. -/
theorem C7_missing_key_counterexample :
    okResult (startBot cfgNoAff true flag2 [envDeal] db0) =
      some ⟨[.pollFlag true, .acquireProxy, .discover, .pollFlag true,
             .dedupCheck "A1" 1000 false, .pollFlag false], db0, 3⟩ := by decide

/-- C7 (amended): missing `telegram.bot_token`, `telegram.channel_id`,
`database.path` or `scraping.max_proxies` aborts construction; a failed
proxy-source initialization or missing `database.retention_days` aborts
before the first cycle; but with those five present startup always
reaches the cycle loop — regardless of `scraping.request_delay.min`,
`scraping.update_interval_minutes` and `amazon.affiliate_id`, whose
absence is swallowed by per-cycle or per-deal error containment — and
the first cycle is attempted. -/
theorem C7_startup_checks (cfg : Config) (pI : Bool) (flag : Nat → Bool)
    (envs : List CycleEnv) (db : Db) :
    ((cfg.bot_token = none ∨ cfg.channel_id = none ∨ cfg.db_path = none ∨
        cfg.max_proxies = none ∨ pI = false ∨ cfg.retention_days = none) →
      isFatal (startBot cfg pI flag envs db) = true)
    ∧ (∀ b ch p mp rd, cfg.bot_token = some b → cfg.channel_id = some ch →
        cfg.db_path = some p → cfg.max_proxies = some mp → pI = true →
        cfg.retention_days = some rd →
        startBot cfg pI flag envs db = .ok (runBot cfg flag envs db 0))
    ∧ (∀ (env : CycleEnv) (rest : List CycleEnv) (db' : Db),
        flag 0 = true → env.proxyOk = true →
        (runBot cfg flag (env :: rest) db' 0).events.take 2 =
          [.pollFlag true, .acquireProxy]) := by
  refine ⟨?_, ?_, ?_⟩
  · intro hmiss
    unfold startBot
    cases hbt : cfg.bot_token with
    | none => rfl
    | some b =>
        cases hch : cfg.channel_id with
        | none => rfl
        | some ch =>
            cases hp : cfg.db_path with
            | none => rfl
            | some p =>
                cases hmp : cfg.max_proxies with
                | none => rfl
                | some mp =>
                    cases hpI : pI with
                    | false => rfl
                    | true =>
                        cases hrd : cfg.retention_days with
                        | none => rfl
                        | some rd =>
                            exfalso
                            rcases hmiss with hx | hx | hx | hx | hx | hx <;>
                              simp_all
  · intro b ch p mp rd hb hch hp hmp hpI hrd
    subst hpI
    simp [startBot, hb, hch, hp, hmp, hrd]
  · intro env rest db' hf hpx
    exact runBot_cycle_start cfg flag env rest db' 0 hf hpx

/-- C7 witness: a configuration missing `telegram.bot_token` is fatal,
a fully populated configuration reaches the loop, and its first cycle
is attempted. -/
theorem C7_startup_checks_witness :
    isFatal (startBot { cfg0 with bot_token := none } true flagT [envDeal] db0)
      = true
    ∧ startBot cfg0 true flagT [envDeal] db0 =
        .ok (runBot cfg0 flagT [envDeal] db0 0)
    ∧ (runBot cfg0 flagT [envDeal] db0 0).events.take 2 =
        [.pollFlag true, .acquireProxy] :=
  ⟨(C7_startup_checks { cfg0 with bot_token := none } true flagT [envDeal]
      db0).1 (Or.inl rfl),
    (C7_startup_checks cfg0 true flagT [envDeal] db0).2.1
      "tok" "chan" "deals.db" 10 30 rfl rfl rfl rfl rfl rfl,
    (C7_startup_checks cfg0 true flagT [envDeal] db0).2.2
      envDeal [] db0 rfl rfl⟩
